import Mathlib

/-!
Verification of the MCP Julia REPL adapter (`src/julia-repl-mcp.py`).

Shallow embedding conventions:
* JSON values (the results of Python `json.loads` and the dictionaries the
  adapter builds) are modelled by the inductive type `J`; numbers are
  modelled as integers (no claim involves fractional JSON numbers).
* Filesystem paths are modelled as lists of path components listed
  deepest-first: `["c", "b", "a"]` stands for `/a/b/c`, and `[]` for the
  filesystem root.  `os.path.dirname` is `List.tail`, and
  `os.path.join dir name` is `name :: dir`.  `os.path.abspath` is an oracle
  of the environment (`World.abspath`).
* All interaction with the operating system and the Python runtime library
  (filesystem existence checks, reading the PID file, `os.kill`, the Unix
  socket, `json.loads`, the builtin `int()`) is captured by a `World`
  record of oracles, so each Python function becomes a pure Lean function
  of the `World`.  `os.kill`'s argument conversion, which raises
  `OverflowError` for identifiers outside the C `pid_t` range before any
  probe happens, is modelled deterministically (`os_kill0`).
* Python exceptions are modelled with `Except String`, the `String` being
  `str(e)`.  The exact text of exceptions raised by the Python runtime
  itself (TypeError, KeyError, AttributeError) is modelled by fixed
  descriptive strings; no property proved below depends on that text.
-/

namespace JuliaReplMcp

/-- JSON values as produced by Python `json.loads` (numbers restricted to
integers, which covers every value the adapter itself constructs). -/
inductive J where
  | null : J
  | bool : Bool → J
  | num : Int → J
  | str : String → J
  | arr : List J → J
  | obj : List (String × J) → J

/-- Python truthiness (`if not x`) for JSON-decoded values. -/
def jTruthy : J → Bool
  | .null => false
  | .bool b => b
  | .num n => n != 0
  | .str s => !s.isEmpty
  | .arr l => !l.isEmpty
  | .obj l => !l.isEmpty

/-- Python `==` between a `str` literal and a JSON-decoded value: string
equality when the value is a string, `False` otherwise. -/
def jEqStr (s : String) : J → Bool
  | .str t => s == t
  | _ => false

/-- Whether `pat` occurs at the head of `text`. -/
def leadMatch : List Char → List Char → Bool
  | [], _ => true
  | _ :: _, [] => false
  | a :: as, b :: bs => a == b && leadMatch as bs

/-- Whether `pat` occurs contiguously somewhere in `text`. -/
def subMatch (pat : List Char) : List Char → Bool
  | [] => leadMatch pat []
  | b :: bs => leadMatch pat (b :: bs) || subMatch pat bs

/-- Python substring test `pat in s`. -/
def strContains (s pat : String) : Bool :=
  subMatch pat.toList s.toList

/-- Python `str.strip()` (whitespace from both ends). -/
def pyStrip (s : String) : String :=
  String.mk (((s.toList.dropWhile Char.isWhitespace).reverse.dropWhile
      Char.isWhitespace).reverse)

mutual

/-- Python `repr()` of a JSON-decoded value (as used by `str()` on
containers): `None`/`True`/`False`, decimal integers, single-quoted strings
(escape sequences inside strings are not reproduced; no claim depends on
them), and bracketed containers. -/
def pyRepr : J → String
  | .null => "None"
  | .bool true => "True"
  | .bool false => "False"
  | .num n => toString n
  | .str s => "\x27" ++ s ++ "\x27"
  | .arr l => "[" ++ pyReprList l ++ "]"
  | .obj l => "\x7b" ++ pyReprObj l ++ "\x7d"

def pyReprList : List J → String
  | [] => ""
  | [x] => pyRepr x
  | x :: y :: rest => pyRepr x ++ ", " ++ pyReprList (y :: rest)

def pyReprObj : List (String × J) → String
  | [] => ""
  | [(k, v)] => "\x27" ++ k ++ "\x27: " ++ pyRepr v
  | (k, v) :: y :: rest => "\x27" ++ k ++ "\x27: " ++ pyRepr v ++ ", " ++ pyReprObj (y :: rest)

end

/-- Python `str()` of a JSON-decoded value (used by f-string interpolation
and by the `str(...)` fallback in the handlers): the string itself for
strings, `repr` for everything else. -/
def pyStr : J → String
  | .str s => s
  | j => pyRepr j

mutual

/-- Python `json.dumps` (string escape sequences not reproduced; no claim
depends on the exact serialisation). -/
def dumps : J → String
  | .null => "null"
  | .bool true => "true"
  | .bool false => "false"
  | .num n => toString n
  | .str s => "\x22" ++ s ++ "\x22"
  | .arr l => "[" ++ dumpsList l ++ "]"
  | .obj l => "\x7b" ++ dumpsObj l ++ "\x7d"

def dumpsList : List J → String
  | [] => ""
  | [x] => dumps x
  | x :: y :: rest => dumps x ++ ", " ++ dumpsList (y :: rest)

def dumpsObj : List (String × J) → String
  | [] => ""
  | [(k, v)] => "\x22" ++ k ++ "\x22: " ++ dumps v
  | (k, v) :: y :: rest => "\x22" ++ k ++ "\x22: " ++ dumps v ++ ", " ++ dumpsObj (y :: rest)

end

/-- Outcome of the zero-signal probe `os.kill(pid, 0)` for a process
identifier that is representable as a C `pid_t` (identifiers outside that
range never reach the syscall: CPython's argument conversion raises
`OverflowError` first, see `os_kill0`). -/
inductive KillResult where
  | ok : KillResult
  | noSuchProcess : KillResult
  | permissionDenied : KillResult

/-- Whether an integer fits the C `pid_t` type CPython converts the `pid`
argument of `os.kill` into (a signed 32-bit `int` on the target Linux
platform). -/
def fitsPidT (pid : Int) : Bool :=
  -(2 ^ 31) ≤ pid && pid < 2 ^ 31

/-- Oracles for everything the adapter asks of the operating system.  Paths
are component lists, deepest component first (`[]` is the root). -/
structure World where
  /-- `os.path.abspath`: maps the caller-supplied directory string to an
  absolute path. -/
  abspath : String → List String
  /-- `os.path.exists`. -/
  fsExists : List String → Bool
  /-- Existence plus contents of a file (used for the PID file); `none`
  models absence (both the `os.path.exists` guard and the caught
  `FileNotFoundError`). -/
  pidRead : List String → Option String
  /-- The outcome of the probe `os.kill(pid, 0)` for a `pid_t`-representable
  identifier (see `os_kill0` for the conversion step). -/
  kill0 : Int → KillResult
  /-- Python's builtin `int()` applied to a string: `none` models the raised
  `ValueError`.  Like `json.loads` below, the builtin is an oracle of the
  environment; its CPython behavior (optional sign, PEP 515 underscore
  separators, any Unicode decimal digits) is not reimplemented here. -/
  pyInt : String → Option Int
  /-- Whether `socket.connect` succeeds; on failure `connectErrMsg` is
  `str` of the raised `socket.error`. -/
  connectOk : Bool
  connectErrMsg : String
  /-- Whether writing and flushing the request line succeeds; on failure
  `writeErrMsg` is `str` of the raised `socket.error`. -/
  writeOk : Bool
  writeErrMsg : String
  /-- `sock_file.readline()`: `none` models the empty read of a closed
  connection. -/
  readlineResult : Option String
  /-- `json.loads`: `none` models `json.JSONDecodeError`, whose `str` is
  `parseErrMsg` applied to the offending text. -/
  jsonParse : String → Option J
  parseErrMsg : String → String

/-- `SOCKET_NAME = ".mcp-repl.sock"`. -/
def SOCKET_NAME : String := ".mcp-repl.sock"

/-- `PID_NAME = ".mcp-repl.pid"`. -/
def PID_NAME : String := ".mcp-repl.pid"

/-- The marker-socket path `os.path.join(dir, SOCKET_NAME)` for a
directory `dir`. -/
def markerAt (dir : List String) : List String :=
  SOCKET_NAME :: dir

/-- `find_socket_path`: walk up the directory tree from `current` looking
for `SOCKET_NAME`; return its path when found.  The source computes
`current = os.path.abspath(start_dir)` first and then loops: check
`os.path.exists(os.path.join(current, SOCKET_NAME))`, move to
`os.path.dirname(current)`, and return `None` once the parent equals the
current directory.  Here `current` is the already-absolute path and the
loop is structural recursion on its component list (dirname = tail;
parent = current exactly at the root `[]`). -/
def find_socket_path (ex : List String → Bool) : List String → Option (List String)
  | [] => if ex (markerAt []) then some (markerAt []) else none
  | c :: parent =>
    if ex (markerAt (c :: parent)) then some (markerAt (c :: parent))
    else find_socket_path ex parent

/-- `os.kill(pid, 0)`: CPython first converts the Python integer to a C
`pid_t` and raises `OverflowError` when it does not fit; only a
representable identifier reaches the syscall, whose outcome is the
`World.kill0` oracle. -/
def os_kill0 (w : World) (pid : Int) : Except String KillResult :=
  if fitsPidT pid then .ok (w.kill0 pid)
  else .error "OverflowError: signed integer is greater than maximum"

/-- `check_server_running`: derive the PID-file path next to the socket,
report `False` when the file is absent; otherwise read it, parse the
stripped contents with `int()` and probe the process with signal `0`.
`ValueError`, `ProcessLookupError`, `PermissionError` and
`FileNotFoundError` are caught and yield `False`; any other exception —
in particular the `OverflowError` raised by `os.kill` for an identifier
outside the `pid_t` range — is not in the `except` tuple and propagates
(the `Except` error channel). -/
def check_server_running (w : World) (socket_path : List String) : Except String Bool :=
  let pid_path := PID_NAME :: socket_path.tail
  match w.pidRead pid_path with
  | none => .ok false
  | some contents =>
    match w.pyInt (pyStrip contents) with
    | none => .ok false
    | some pid =>
      match os_kill0 w pid with
      | .ok KillResult.ok => .ok true
      | .ok KillResult.noSuchProcess => .ok false
      | .ok KillResult.permissionDenied => .ok false
      | .error e => .error e

/-- `send_to_julia_server`: open a fresh connection, write the request as
one JSON line, read one line back and parse it.  The returned `Bool`
records whether `sock.close()` was reached before the call finished.  In
the source, `ConnectionError` (raised on an empty read) and every other
`socket.error` are caught by the `except socket.error` clause and
re-raised as a generic `Exception` with a `Socket error: ...` message,
while a `json.JSONDecodeError` propagates unchanged; the only
`sock_file.close(); sock.close()` calls sit on the success path. -/
def send_to_julia_server (w : World) (_socket_path : List String) (_request : J) :
    Except String J × Bool :=
  if !w.connectOk then
    (.error ("Socket error: " ++ w.connectErrMsg ++ ". Is the Julia MCP server running?"), false)
  else if !w.writeOk then
    (.error ("Socket error: " ++ w.writeErrMsg ++ ". Is the Julia MCP server running?"), false)
  else
    match w.readlineResult with
    | none =>
      (.error "Socket error: Server closed connection. Is the Julia MCP server running?", false)
    | some line =>
      match w.jsonParse line with
      | none => (.error (w.parseErrMsg line), false)
      | some response => (.ok response, true)

/-- Python `d.get(k)` (default `None`): raises `AttributeError` when the
receiver is not a dictionary. -/
def pyGet (j : J) (k : String) : Except String J :=
  match j with
  | .obj kvs => .ok ((List.lookup k kvs).getD J.null)
  | _ => .error ("AttributeError: no attribute get on value " ++ pyRepr j)

/-- Python `d.get(k, default)`: raises `AttributeError` when the receiver
is not a dictionary. -/
def pyGetD (j : J) (k : String) (d : J) : Except String J :=
  match j with
  | .obj kvs => .ok ((List.lookup k kvs).getD d)
  | _ => .error ("AttributeError: no attribute get on value " ++ pyRepr j)

/-- Python `k in j` for a string `k`: key test on dictionaries, membership
test on lists, substring test on strings, `TypeError` otherwise. -/
def pyContains (j : J) (k : String) : Except String Bool :=
  match j with
  | .obj kvs => .ok (List.lookup k kvs).isSome
  | .arr l => .ok (l.any (fun x => jEqStr k x))
  | .str s => .ok (strContains s k)
  | _ => .error ("TypeError: argument of type is not iterable: " ++ pyRepr j)

/-- Python `j[k]` for a string key `k`: dictionary lookup (raising
`KeyError` when absent), `TypeError` on any other receiver (including
lists and strings, whose indices must be integers). -/
def pyIndexStr (j : J) (k : String) : Except String J :=
  match j with
  | .obj kvs =>
    match List.lookup k kvs with
    | some v => .ok v
    | none => .error ("KeyError: " ++ k)
  | _ => .error ("TypeError: indices must be integers, not str: " ++ pyRepr j)

/-- The response-unwrapping block shared verbatim by the three handlers
(lines 154-161, 195-201 and 235-241 of the source are textually
identical):

* a response carrying an `error` field yields
  `"Error from Julia server: " ++ str(response[\x27error\x27][\x27message\x27])`;
* otherwise, when `"result" in response and "content" in
  response["result"]` and that `content` is a non-empty list, the result
  is `content[0].get("text", "")`;
* otherwise `str(response.get("result", ""))`.

Exceptions raised along the way (`TypeError`, `KeyError`,
`AttributeError`) are returned in the `Except` error channel; the
handlers' enclosing `try` converts them to a string. -/
def unwrap_response (response : J) : Except String J := do
  let hasErr ← pyContains response "error"
  if hasErr then
    let errv ← pyIndexStr response "error"
    let msg ← pyIndexStr errv "message"
    return J.str ("Error from Julia server: " ++ pyStr msg)
  else
    let hasRes ← pyContains response "result"
    if hasRes then
      let resv ← pyIndexStr response "result"
      let hasContent ← pyContains resv "content"
      if hasContent then
        let content ← pyIndexStr resv "content"
        match content with
        | .arr (first :: _) => pyGetD first "text" (J.str "")
        | _ => do
          let r ← pyGetD response "result" (J.str "")
          return J.str (pyStr r)
      else do
        let r ← pyGetD response "result" (J.str "")
        return J.str (pyStr r)
    else do
      let r ← pyGetD response "result" (J.str "")
      return J.str (pyStr r)

/-- The `try`-block each handler wraps around the backend round trip:
forward the request, unwrap the response, and convert any raised
exception `e` (the re-raised socket failure, a JSON decode failure, or a
fault during unwrapping) to the string
`"Error communicating with Julia server: " ++ str(e)`. -/
def handler_try_block (w : World) (socket_path : List String) (julia_request : J) : J :=
  match (send_to_julia_server w socket_path julia_request).1 with
  | .error e => J.str ("Error communicating with Julia server: " ++ e)
  | .ok response =>
    match unwrap_response response with
    | .ok v => v
    | .error e => J.str ("Error communicating with Julia server: " ++ e)

/-- The argument value must be a string to be passed to `os.path.abspath`;
any other (truthy) value raises `TypeError` there, outside the handler's
`try`. -/
def pyAsPath (j : J) : Except String String :=
  match j with
  | .str s => .ok s
  | _ => .error ("TypeError: expected str for path, got " ++ pyRepr j)

/-- `handle_exec_repl`: validate `project_dir` and `expression`
(truthiness, so absent and empty-string are alike), locate the socket,
liveness-check it, forward an `exec_repl` call carrying the expression,
and unwrap the reply.  The `Except` error channel carries exceptions that
escape the handler (only possible before its `try`, e.g. `args.get` on a
non-dictionary). -/
def handle_exec_repl (w : World) (args : J) : Except String J := do
  let project_dir ← pyGetD args "project_dir" (J.str "")
  let expression ← pyGetD args "expression" (J.str "")
  if !jTruthy project_dir then
    return J.str "Error: project_dir parameter is required"
  else if !jTruthy expression then
    return J.str "Error: expression parameter is required"
  else
    let pd ← pyAsPath project_dir
    match find_socket_path w.fsExists (w.abspath pd) with
    | none =>
      return J.str ("Error: MCP REPL server not found in " ++ pd ++
        ". Start the server with:\n  julia --project -e \x27using MCPRepl; MCPRepl.start!()\x27")
    | some socket_path =>
      let alive ← check_server_running w socket_path
      if !alive then
        return J.str ("Error: MCP REPL server not running (socket exists but process dead). " ++
          "Start the server with:\n  julia --project -e \x27using MCPRepl; MCPRepl.start!()\x27")
      else
        let julia_request := J.obj [
          ("jsonrpc", J.str "2.0"),
          ("id", J.num 1),
          ("method", J.str "tools/call"),
          ("params", J.obj [
            ("name", J.str "exec_repl"),
            ("arguments", J.obj [("expression", expression)])])]
        return handler_try_block w socket_path julia_request

/-- `handle_investigate_environment`: validate `project_dir`, locate the
socket, liveness-check it, forward an `investigate_environment` call with
empty arguments, and unwrap the reply. -/
def handle_investigate_environment (w : World) (args : J) : Except String J := do
  let project_dir ← pyGetD args "project_dir" (J.str "")
  if !jTruthy project_dir then
    return J.str "Error: project_dir parameter is required"
  else
    let pd ← pyAsPath project_dir
    match find_socket_path w.fsExists (w.abspath pd) with
    | none => return J.str ("Error: MCP REPL server not found in " ++ pd)
    | some socket_path =>
      let alive ← check_server_running w socket_path
      if !alive then
        return J.str "Error: MCP REPL server not running"
      else
        let julia_request := J.obj [
          ("jsonrpc", J.str "2.0"),
          ("id", J.num 1),
          ("method", J.str "tools/call"),
          ("params", J.obj [
            ("name", J.str "investigate_environment"),
            ("arguments", J.obj [])])]
        return handler_try_block w socket_path julia_request

/-- `handle_usage_instructions`: validate `project_dir`, locate the
socket, liveness-check it, forward a `usage_instructions` call with empty
arguments, and unwrap the reply. -/
def handle_usage_instructions (w : World) (args : J) : Except String J := do
  let project_dir ← pyGetD args "project_dir" (J.str "")
  if !jTruthy project_dir then
    return J.str "Error: project_dir parameter is required"
  else
    let pd ← pyAsPath project_dir
    match find_socket_path w.fsExists (w.abspath pd) with
    | none => return J.str ("Error: MCP REPL server not found in " ++ pd)
    | some socket_path =>
      let alive ← check_server_running w socket_path
      if !alive then
        return J.str "Error: MCP REPL server not running"
      else
        let julia_request := J.obj [
          ("jsonrpc", J.str "2.0"),
          ("id", J.num 1),
          ("method", J.str "tools/call"),
          ("params", J.obj [
            ("name", J.str "usage_instructions"),
            ("arguments", J.obj [])])]
        return handler_try_block w socket_path julia_request

/-- One entry of the `TOOLS` registry: name, description, input schema and
handler. -/
structure Tool where
  name : String
  description : String
  inputSchema : J
  handler : World → J → Except String J

/-- The static `TOOLS` registry: the three operations, with the exact
names, descriptions and schemas of the source. -/
def TOOLS : List Tool := [
  { name := "exec_repl",
    description := "Execute Julia code in a shared, persistent REPL session.\n\n" ++
      "**PREREQUISITE**: Before using this tool, you MUST first call the `usage_instructions` tool.\n\n" ++
      "The tool returns raw text output containing: all printed content from stdout and stderr streams, " ++
      "plus the mime text/plain representation of the expression\x27s return value " ++
      "(unless the expression ends with a semicolon).\n\n" ++
      "You may use this REPL to execute julia code, run test sets, get function documentation, etc.",
    inputSchema := J.obj [
      ("type", J.str "object"),
      ("properties", J.obj [
        ("project_dir", J.obj [
          ("type", J.str "string"),
          ("description", J.str "Directory where the Julia project is located (used to find the REPL socket)")]),
        ("expression", J.obj [
          ("type", J.str "string"),
          ("description", J.str "Julia expression to evaluate (e.g., \x272 + 3 * 4\x27 or `import Pkg; Pkg.status()`)")])]),
      ("required", J.arr [J.str "project_dir", J.str "expression"])],
    handler := handle_exec_repl },
  { name := "investigate_environment",
    description := "Investigate the current Julia environment including pwd, active project, packages, " ++
      "and development packages with their paths.\n\n" ++
      "This tool provides comprehensive information about:\n" ++
      "- Current working directory\n" ++
      "- Active project and its details\n" ++
      "- All packages in the environment with development status\n" ++
      "- Development packages with their file system paths\n" ++
      "- Current environment package status\n" ++
      "- Revise.jl status for hot reloading",
    inputSchema := J.obj [
      ("type", J.str "object"),
      ("properties", J.obj [
        ("project_dir", J.obj [
          ("type", J.str "string"),
          ("description", J.str "Directory where the Julia project is located")])]),
      ("required", J.arr [J.str "project_dir"])],
    handler := handle_investigate_environment },
  { name := "usage_instructions",
    description := "Get detailed instructions for proper Julia REPL usage, best practices, and workflow guidelines.",
    inputSchema := J.obj [
      ("type", J.str "object"),
      ("properties", J.obj [
        ("project_dir", J.obj [
          ("type", J.str "string"),
          ("description", J.str "Directory where the Julia project is located")])]),
      ("required", J.arr [J.str "project_dir"])],
    handler := handle_usage_instructions }]

/-- `create_error_response`: the JSON-RPC error envelope. -/
def create_error_response (request_id : J) (code : Int) (message : String) : J :=
  J.obj [
    ("jsonrpc", J.str "2.0"),
    ("id", request_id),
    ("error", J.obj [("code", J.num code), ("message", J.str message)])]

/-- `create_success_response`: the JSON-RPC success envelope. -/
def create_success_response (request_id : J) (result : J) : J :=
  J.obj [
    ("jsonrpc", J.str "2.0"),
    ("id", request_id),
    ("result", result)]

/-- The result payload of the `initialize` method. -/
def initializeResult : J :=
  J.obj [
    ("protocolVersion", J.str "2024-11-05"),
    ("capabilities", J.obj [("tools", J.obj [])]),
    ("serverInfo", J.obj [
      ("name", J.str "julia-mcp-adapter"),
      ("version", J.str "1.0.0")])]

/-- The wire representation of a registry entry in `tools/list` (handler
excluded). -/
def toolWire (t : Tool) : J :=
  J.obj [
    ("name", J.str t.name),
    ("description", J.str t.description),
    ("inputSchema", t.inputSchema)]

/-- `process_mcp_request`: route on `request.get("method")`.  `none` in the
result models the notification case (no response); the `Except` error
channel carries exceptions escaping this function (caught by the front
ends as `-32603` internal errors).  A handler's own escaped exception is
caught here and converted to a `-32603` "Tool execution error" envelope. -/
def process_mcp_request (w : World) (request : J) : Except String (Option J) := do
  let method ← pyGet request "method"
  let request_id ← pyGet request "id"
  if jEqStr "initialize" method then
    return some (create_success_response request_id initializeResult)
  else if jEqStr "notifications/initialized" method then
    return none
  else if jEqStr "tools/list" method then
    return some (create_success_response request_id
      (J.obj [("tools", J.arr (TOOLS.map toolWire))]))
  else if jEqStr "tools/call" method then
    let params ← pyGetD request "params" (J.obj [])
    let tool_name ← pyGetD params "name" (J.str "")
    let args ← pyGetD params "arguments" (J.obj [])
    match TOOLS.find? (fun t => jEqStr t.name tool_name) with
    | none =>
      return some (create_error_response request_id (-32602)
        ("Tool not found: " ++ pyStr tool_name))
    | some tool =>
      match tool.handler w args with
      | .ok result_text =>
        return some (create_success_response request_id
          (J.obj [("content", J.arr [J.obj [
            ("type", J.str "text"),
            ("text", result_text)]])]))
      | .error e =>
        return some (create_error_response request_id (-32603)
          ("Tool execution error: " ++ e))
  else
    return some (create_error_response request_id (-32601)
      ("Method not found: " ++ pyStr method))

/-- One iteration of the stdio loop of `run_stdio_mode` for one input
line: strip it, skip it when blank, parse it as JSON (`-32700` envelope on
failure), dispatch it, print the dumped response unless it was a
notification, and convert an escaped exception to a `-32603` envelope.
The returned list holds the lines printed for this input line. -/
def process_line (w : World) (line : String) : List String :=
  let l := pyStrip line
  if l.isEmpty then []
  else
    match w.jsonParse l with
    | none =>
      [dumps (create_error_response J.null (-32700) ("Parse error: " ++ w.parseErrMsg l))]
    | some request =>
      match process_mcp_request w request with
      | .ok none => []
      | .ok (some response) => [dumps response]
      | .error e =>
        [dumps (create_error_response J.null (-32603) ("Internal error: " ++ e))]

/-- `run_stdio_mode`: the whole stdin-to-stdout transcript, one input line
at a time, in order. -/
def run_stdio_mode (w : World) (input : List String) : List String :=
  (input.map (process_line w)).flatten

/-- A marker-existence oracle for witnesses: the marker file exists exactly
in directory `/a`. -/
def exWitness : List String → Bool := fun l => l == markerAt ["a"]

/-- A concrete environment used by several witnesses: no PID file, a
connection-refused socket, and a JSON parser that always fails. -/
def baseWorld : World := {
  abspath := fun _ => ["p"]
  fsExists := fun _ => false
  pidRead := fun _ => none
  kill0 := fun _ => .noSuchProcess
  pyInt := fun _ => none
  connectOk := false
  connectErrMsg := "refused"
  writeOk := true
  writeErrMsg := ""
  readlineResult := none
  jsonParse := fun _ => none
  parseErrMsg := fun _ => "invalid json" }

/-- The `int()` behavior exercised by the concrete environments below:
exactly what CPython returns on these inputs. -/
def pyIntWitness : String → Option Int := fun s =>
  if s == "123" then some 123
  else if s == "99999999999999999999" then some 99999999999999999999
  else none

/-- `baseWorld` with a readable PID file (contents `" 123 "`) and a
successful zero-signal probe. -/
def wAlive : World :=
  { baseWorld with
    pidRead := fun _ => some " 123 "
    kill0 := fun _ => .ok
    pyInt := pyIntWitness }

/-- `baseWorld` with a PID file whose contents parse to an integer outside
the C `pid_t` range, so the probe raises `OverflowError`. -/
def wOverflow : World :=
  { baseWorld with
    pidRead := fun _ => some "99999999999999999999"
    pyInt := pyIntWitness }

/-- A concrete `tools/call` request naming an unregistered tool. -/
def pkvsUnknown : List (String × J) := [("name", J.str "nonexistent")]

def reqUnknown : List (String × J) :=
  [("jsonrpc", J.str "2.0"), ("id", J.num 9), ("method", J.str "tools/call"),
   ("params", J.obj pkvsUnknown)]

/-- `baseWorld` whose JSON parser maps the input line `"N"` to the
`notifications/initialized` notification. -/
def wNotif : World :=
  { baseWorld with jsonParse := fun s =>
      if s == "N" then some (J.obj [("jsonrpc", J.str "2.0"),
        ("method", J.str "notifications/initialized")]) else none }

/-- An environment with a live backend whose reply is
`{result: {content: [{type: "text", text: "2"}]}}`. -/
def wRoundTrip : World :=
  { baseWorld with
    fsExists := fun _ => true
    pidRead := fun _ => some "123"
    kill0 := fun _ => .ok
    pyInt := pyIntWitness
    connectOk := true
    readlineResult := some "L"
    jsonParse := fun _ => some (J.obj [("result", J.obj [("content",
      J.arr [J.obj [("type", J.str "text"), ("text", J.str "2")]])])]) }

/-- An environment with a live backend whose reply carries a content list
whose first item is a mapping without a `text` field. -/
def wMalformed : World :=
  { baseWorld with
    fsExists := fun _ => true
    pidRead := fun _ => some "123"
    kill0 := fun _ => .ok
    pyInt := pyIntWitness
    connectOk := true
    readlineResult := some "L"
    jsonParse := fun _ => some (J.obj [("result", J.obj [("content", J.arr [J.obj []])])]) }

theorem find_socket_path_nil (ex : List String → Bool) :
    find_socket_path ex [] = if ex (markerAt []) then some (markerAt []) else none := rfl

theorem find_socket_path_cons (ex : List String → Bool) (c : String) (rest : List String) :
    find_socket_path ex (c :: rest) =
      if ex (markerAt (c :: rest)) then some (markerAt (c :: rest))
      else find_socket_path ex rest := rfl

/-- C5: `find_socket_path` terminates (it is structural recursion on the
component list, the walk being bounded by path depth since the parent of
the root is the root) and returns the marker path of the nearest (deepest)
ancestor of the absolute start directory that contains the marker file, or
`none` when no ancestor up to the root contains it.  Ancestors of `p` are
exactly the suffixes of its component list. -/
theorem find_socket_path_correct (ex : List String → Bool) (p : List String) :
    (find_socket_path ex p = none ↔ ∀ q, q <:+ p → ex (markerAt q) = false) ∧
    (∀ r, find_socket_path ex p = some r →
      ∃ s, s <:+ p ∧ r = markerAt s ∧ ex (markerAt s) = true ∧
        ∀ q, q <:+ p → s.length < q.length → ex (markerAt q) = false) := by
  induction p with
  | nil =>
    cases h : ex (markerAt []) with
    | true =>
      refine ⟨?_, ?_⟩
      · rw [find_socket_path_nil, h, if_pos rfl]
        constructor
        · intro hn; simp at hn
        · intro hall
          have hf := hall [] List.suffix_rfl
          rw [h] at hf
          exact absurd hf (by decide)
      · intro r hr
        rw [find_socket_path_nil, h, if_pos rfl, Option.some.injEq] at hr
        refine ⟨[], List.suffix_rfl, hr.symm, h, ?_⟩
        intro q hq hlen
        rw [List.suffix_nil] at hq
        subst hq
        simp at hlen
    | false =>
      refine ⟨?_, ?_⟩
      · rw [find_socket_path_nil, h, if_neg (by decide)]
        constructor
        · intro _ q hq
          rw [List.suffix_nil] at hq
          subst hq
          exact h
        · intro _; rfl
      · intro r hr
        rw [find_socket_path_nil, h, if_neg (by decide)] at hr
        exact absurd hr (by simp)
  | cons c rest ih =>
    cases h : ex (markerAt (c :: rest)) with
    | true =>
      refine ⟨?_, ?_⟩
      · rw [find_socket_path_cons, h, if_pos rfl]
        constructor
        · intro hn; simp at hn
        · intro hall
          have hf := hall (c :: rest) List.suffix_rfl
          rw [h] at hf
          exact absurd hf (by decide)
      · intro r hr
        rw [find_socket_path_cons, h, if_pos rfl, Option.some.injEq] at hr
        refine ⟨c :: rest, List.suffix_rfl, hr.symm, h, ?_⟩
        intro q hq hlen
        have := hq.length_le
        omega
    | false =>
      refine ⟨?_, ?_⟩
      · rw [find_socket_path_cons, h, if_neg (by decide), ih.1]
        constructor
        · intro hall q hq
          rcases List.suffix_cons_iff.mp hq with rfl | hq'
          · exact h
          · exact hall q hq'
        · intro hall q hq
          exact hall q (hq.trans (List.suffix_cons c rest))
      · intro r hr
        rw [find_socket_path_cons, h, if_neg (by decide)] at hr
        obtain ⟨s, hs, hrs, hex, hnear⟩ := ih.2 r hr
        refine ⟨s, hs.trans (List.suffix_cons c rest), hrs, hex, ?_⟩
        intro q hq hlen
        rcases List.suffix_cons_iff.mp hq with rfl | hq'
        · exact h
        · exact hnear q hq' hlen

/-- C5 witness: with the marker only at `/a`, the walk from `/a/b/c` finds
`/a/.mcp-repl.sock`, and every strictly deeper ancestor is marker-free. -/
theorem find_socket_path_correct_witness :
    ∃ s, s <:+ ["c", "b", "a"] ∧ ([SOCKET_NAME, "a"] : List String) = markerAt s ∧
      exWitness (markerAt s) = true ∧
      ∀ q, q <:+ ["c", "b", "a"] → s.length < q.length → exWitness (markerAt q) = false :=
  (find_socket_path_correct exWitness ["c", "b", "a"]).2 [SOCKET_NAME, "a"] (by decide)

/-- C4 counterexample: a PID file whose contents parse (as CPython's
`int()` does) to `99999999999999999999`, an integer outside the C `pid_t`
range, makes `check_server_running` raise — `os.kill`'s `OverflowError`
is not in the caught `(ValueError, ProcessLookupError, PermissionError,
FileNotFoundError)` tuple — refuting the claim that the function never
raises and always resolves to a boolean. -/
theorem check_server_running_raises_counterexample :
    check_server_running wOverflow [SOCKET_NAME, "proj"] =
      Except.error "OverflowError: signed integer is greater than maximum" ∧
    wOverflow.pidRead (PID_NAME :: ([SOCKET_NAME, "proj"] : List String).tail) =
      some "99999999999999999999" ∧
    wOverflow.pyInt (pyStrip "99999999999999999999") = some 99999999999999999999 ∧
    fitsPidT 99999999999999999999 = false :=
  ⟨by simp +decide [check_server_running, wOverflow, baseWorld, pyIntWitness, os_kill0,
      pyStrip, fitsPidT], rfl, by decide, by decide⟩

/-- C4 amended: `check_server_running` resolves to a boolean without
raising whenever the parsed identifier is representable as a C `pid_t`:
it returns `false` when the companion PID file is absent, when its
stripped contents do not parse as an integer (`ValueError`), when the
probed process does not exist (`ProcessLookupError`), and when the probe
is denied by permissions (`PermissionError`); it returns `true` when the
probe succeeds.  But when the parsed identifier lies outside the `pid_t`
range, `os.kill`'s `OverflowError` is not caught and the function
raises. -/
theorem check_server_running_amended (w : World) (p : List String) :
    (w.pidRead (PID_NAME :: p.tail) = none → check_server_running w p = .ok false) ∧
    (∀ s, w.pidRead (PID_NAME :: p.tail) = some s → w.pyInt (pyStrip s) = none →
      check_server_running w p = .ok false) ∧
    (∀ s n, w.pidRead (PID_NAME :: p.tail) = some s → w.pyInt (pyStrip s) = some n →
      fitsPidT n = true → w.kill0 n = KillResult.noSuchProcess →
      check_server_running w p = .ok false) ∧
    (∀ s n, w.pidRead (PID_NAME :: p.tail) = some s → w.pyInt (pyStrip s) = some n →
      fitsPidT n = true → w.kill0 n = KillResult.permissionDenied →
      check_server_running w p = .ok false) ∧
    (∀ s n, w.pidRead (PID_NAME :: p.tail) = some s → w.pyInt (pyStrip s) = some n →
      fitsPidT n = true → w.kill0 n = KillResult.ok →
      check_server_running w p = .ok true) ∧
    (∀ s n, w.pidRead (PID_NAME :: p.tail) = some s → w.pyInt (pyStrip s) = some n →
      fitsPidT n = false →
      check_server_running w p =
        .error "OverflowError: signed integer is greater than maximum") := by
  refine ⟨?_, ?_, ?_, ?_, ?_, ?_⟩
  · intro h; simp [check_server_running, h]
  · intro s h hp; simp [check_server_running, h, hp]
  · intro s n h hp hf hk; simp [check_server_running, os_kill0, h, hp, hf, hk]
  · intro s n h hp hf hk; simp [check_server_running, os_kill0, h, hp, hf, hk]
  · intro s n h hp hf hk; simp [check_server_running, os_kill0, h, hp, hf, hk]
  · intro s n h hp hf; simp [check_server_running, os_kill0, h, hp, hf]

/-- C4 amended witness: a PID file containing `" 123 "` with a successful
probe reports running; an absent PID file reports not running; the
out-of-range identifier raises. -/
theorem check_server_running_amended_witness :
    wAlive.pidRead (PID_NAME :: ([SOCKET_NAME, "proj"] : List String).tail) = some " 123 " ∧
    wAlive.pyInt (pyStrip " 123 ") = some 123 ∧
    fitsPidT 123 = true ∧
    wAlive.kill0 123 = KillResult.ok ∧
    check_server_running wAlive [SOCKET_NAME, "proj"] = .ok true ∧
    baseWorld.pidRead (PID_NAME :: ([SOCKET_NAME, "proj"] : List String).tail) = none ∧
    check_server_running baseWorld [SOCKET_NAME, "proj"] = .ok false ∧
    check_server_running wOverflow [SOCKET_NAME, "proj"] =
      .error "OverflowError: signed integer is greater than maximum" :=
  ⟨rfl, by decide, by decide, rfl,
   (check_server_running_amended wAlive [SOCKET_NAME, "proj"]).2.2.2.2.1 " 123 " 123
     rfl (by decide) (by decide) rfl,
   rfl,
   (check_server_running_amended baseWorld [SOCKET_NAME, "proj"]).1 rfl,
   (check_server_running_amended wOverflow [SOCKET_NAME, "proj"]).2.2.2.2.2
     "99999999999999999999" 99999999999999999999 rfl (by decide) (by decide)⟩

/-- C2 counterexample: on the connection-refused failure path the call
fails (the caught `socket.error` is re-raised as a generic exception) but
`sock.close()` is never reached — the closed-flag is `false`, refuting the
claim that the connection is closed on every failure path. -/
theorem send_to_julia_server_not_closed_on_failure :
    (send_to_julia_server baseWorld [SOCKET_NAME, "p"] (J.obj [])).1 =
      Except.error "Socket error: refused. Is the Julia MCP server running?" ∧
    (send_to_julia_server baseWorld [SOCKET_NAME, "p"] (J.obj [])).2 = false :=
  ⟨rfl, rfl⟩

/-- C2 amended: the explicit `sock_file.close(); sock.close()` calls are
reached exactly on the success path — the socket is closed before the call
returns if and only if the call returns a parsed response, and on every
failure path (connection refused, write failure, connection closed before
a full line, unparseable response line) the call raises without having
closed the socket. -/
theorem send_to_julia_server_closed_iff_ok (w : World) (sp : List String) (req : J) :
    (send_to_julia_server w sp req).2 = true ↔
      ∃ r, (send_to_julia_server w sp req).1 = Except.ok r := by
  by_cases hc : w.connectOk
  · by_cases hw : w.writeOk
    · cases hr : w.readlineResult with
      | none => simp [send_to_julia_server, hc, hw, hr]
      | some line =>
        cases hp : w.jsonParse line with
        | none => simp [send_to_julia_server, hc, hw, hr, hp]
        | some resp => simp [send_to_julia_server, hc, hw, hr, hp]
    · simp [send_to_julia_server, hc, hw]
  · simp [send_to_julia_server, hc]

/-- C9: a `project_dir` argument that is present but equal to the empty
string is treated identically to an absent `project_dir` by every tool
handler — the handler returns the `project_dir parameter is required`
error string, and likewise an empty-string `expression` for the execute
operation yields the `expression parameter is required` error string.  The
conclusion holds for every environment `w`, so no backend resolution is
attempted (the result is independent of the filesystem and socket
oracles). -/
theorem empty_required_args (w : World) :
    (∀ kvs, List.lookup "project_dir" kvs = some (J.str "") →
      handle_exec_repl w (J.obj kvs) = .ok (J.str "Error: project_dir parameter is required")) ∧
    (∀ kvs, List.lookup "project_dir" kvs = none →
      handle_exec_repl w (J.obj kvs) = .ok (J.str "Error: project_dir parameter is required")) ∧
    (∀ kvs pd, List.lookup "project_dir" kvs = some pd → jTruthy pd = true →
      List.lookup "expression" kvs = some (J.str "") →
      handle_exec_repl w (J.obj kvs) = .ok (J.str "Error: expression parameter is required")) ∧
    (∀ kvs pd, List.lookup "project_dir" kvs = some pd → jTruthy pd = true →
      List.lookup "expression" kvs = none →
      handle_exec_repl w (J.obj kvs) = .ok (J.str "Error: expression parameter is required")) ∧
    (∀ kvs, List.lookup "project_dir" kvs = some (J.str "") →
      handle_investigate_environment w (J.obj kvs) =
        .ok (J.str "Error: project_dir parameter is required")) ∧
    (∀ kvs, List.lookup "project_dir" kvs = some (J.str "") →
      handle_usage_instructions w (J.obj kvs) =
        .ok (J.str "Error: project_dir parameter is required")) := by
  refine ⟨?_, ?_, ?_, ?_, ?_, ?_⟩
  · intro kvs h
    simp +decide [handle_exec_repl, pyGetD, h, Bind.bind, Except.bind, jTruthy, pure, Except.pure]
  · intro kvs h
    simp +decide [handle_exec_repl, pyGetD, h, Bind.bind, Except.bind, jTruthy, pure, Except.pure]
  · intro kvs pd hpd ht h
    simp +decide [handle_exec_repl, pyGetD, hpd, ht, h, Bind.bind, Except.bind, pure, Except.pure]
  · intro kvs pd hpd ht h
    simp +decide [handle_exec_repl, pyGetD, hpd, ht, h, Bind.bind, Except.bind, pure,
      Except.pure]
  · intro kvs h
    simp +decide [handle_investigate_environment, pyGetD, h, Bind.bind, Except.bind, jTruthy,
      pure, Except.pure]
  · intro kvs h
    simp +decide [handle_usage_instructions, pyGetD, h, Bind.bind, Except.bind, jTruthy,
      pure, Except.pure]

/-- C9 witness: concrete empty-string arguments for all three handlers. -/
theorem empty_required_args_witness :
    handle_exec_repl baseWorld (J.obj [("project_dir", J.str "")]) =
      .ok (J.str "Error: project_dir parameter is required") ∧
    handle_exec_repl baseWorld (J.obj [("project_dir", J.str "/tmp"), ("expression", J.str "")]) =
      .ok (J.str "Error: expression parameter is required") ∧
    handle_investigate_environment baseWorld (J.obj [("project_dir", J.str "")]) =
      .ok (J.str "Error: project_dir parameter is required") ∧
    handle_usage_instructions baseWorld (J.obj [("project_dir", J.str "")]) =
      .ok (J.str "Error: project_dir parameter is required") :=
  ⟨(empty_required_args baseWorld).1 _ rfl,
   (empty_required_args baseWorld).2.2.1 _ (J.str "/tmp") rfl (by decide) rfl,
   (empty_required_args baseWorld).2.2.2.2.1 _ rfl,
   (empty_required_args baseWorld).2.2.2.2.2 _ rfl⟩

/-- C6: a `tools/call` request whose `params.name` matches no registry
entry by exact string equality yields a JSON-RPC error envelope with code
`-32602` whose message names the unknown tool.  The conclusion holds for
every environment `w`, which is the formal content of "no handler is
invoked": the result never consults any handler oracle. -/
theorem unknown_tool_error (w : World) (req pkvs : List (String × J)) (nameJ : J)
    (hm : List.lookup "method" req = some (J.str "tools/call"))
    (hp : List.lookup "params" req = some (J.obj pkvs))
    (hn : List.lookup "name" pkvs = some nameJ)
    (hunk : ∀ t ∈ TOOLS, jEqStr t.name nameJ = false) :
    process_mcp_request w (J.obj req) =
      .ok (some (create_error_response ((List.lookup "id" req).getD J.null) (-32602)
        ("Tool not found: " ++ pyStr nameJ))) := by
  have hfind : TOOLS.find? (fun t => jEqStr t.name nameJ) = none := by
    rw [List.find?_eq_none]
    intro t ht
    simp [hunk t ht]
  simp +decide [process_mcp_request, pyGet, pyGetD, hm, hp, hn, hfind,
    Bind.bind, Except.bind, pure, Except.pure]

/-- C6 witness: `tools/call` with `name: "nonexistent"`. -/
theorem unknown_tool_error_witness :
    process_mcp_request baseWorld (J.obj reqUnknown) =
      .ok (some (create_error_response ((List.lookup "id" reqUnknown).getD J.null) (-32602)
        ("Tool not found: " ++ pyStr (J.str "nonexistent")))) :=
  unknown_tool_error baseWorld reqUnknown pkvsUnknown (J.str "nonexistent")
    rfl rfl rfl (by intro t ht; fin_cases ht <;> rfl)

/-- Helper: on an empty argument mapping the execute handler immediately
reports the missing `project_dir`. -/
theorem handle_exec_repl_empty_args (w : World) :
    handle_exec_repl w (J.obj []) = .ok (J.str "Error: project_dir parameter is required") := rfl

/-- C10: a `tools/call` request that omits `params` entirely, or omits
`params.name`, does not crash the dispatcher: `params` defaults to an
empty mapping and the tool name to the empty string, resolving to the
`-32602` envelope whose message names the empty tool name
(`"Tool not found: "`); and `arguments` defaults to an empty mapping when
absent, as exhibited by a known tool receiving the empty mapping and
reporting the missing `project_dir`. -/
theorem tools_call_defaults (w : World) :
    (∀ req, List.lookup "method" req = some (J.str "tools/call") →
      List.lookup "params" req = none →
      process_mcp_request w (J.obj req) =
        .ok (some (create_error_response ((List.lookup "id" req).getD J.null) (-32602)
          "Tool not found: "))) ∧
    (∀ req pkvs, List.lookup "method" req = some (J.str "tools/call") →
      List.lookup "params" req = some (J.obj pkvs) →
      List.lookup "name" pkvs = none →
      process_mcp_request w (J.obj req) =
        .ok (some (create_error_response ((List.lookup "id" req).getD J.null) (-32602)
          "Tool not found: "))) ∧
    (∀ req pkvs, List.lookup "method" req = some (J.str "tools/call") →
      List.lookup "params" req = some (J.obj pkvs) →
      List.lookup "name" pkvs = some (J.str "exec_repl") →
      List.lookup "arguments" pkvs = none →
      process_mcp_request w (J.obj req) =
        .ok (some (create_success_response ((List.lookup "id" req).getD J.null)
          (J.obj [("content", J.arr [J.obj [("type", J.str "text"),
            ("text", J.str "Error: project_dir parameter is required")]])])))) := by
  refine ⟨?_, ?_, ?_⟩
  · intro req hm hp
    simp +decide [process_mcp_request, pyGet, pyGetD, hm, hp,
      Bind.bind, Except.bind, pure, Except.pure, TOOLS, List.find?, jEqStr, pyStr]
  · intro req pkvs hm hp hn
    simp +decide [process_mcp_request, pyGet, pyGetD, hm, hp, hn,
      Bind.bind, Except.bind, pure, Except.pure, TOOLS, List.find?, jEqStr, pyStr]
  · intro req pkvs hm hp hn ha
    simp +decide [process_mcp_request, pyGet, pyGetD, hm, hp, hn, ha,
      Bind.bind, Except.bind, pure, Except.pure, TOOLS, List.find?, jEqStr, pyStr,
      handle_exec_repl_empty_args]

/-- C10 witness: concrete requests with no `params` and with `params`
lacking `arguments`. -/
theorem tools_call_defaults_witness :
    process_mcp_request baseWorld (J.obj [("method", J.str "tools/call")]) =
      .ok (some (create_error_response
        ((List.lookup "id" [("method", J.str "tools/call")]).getD J.null) (-32602)
        "Tool not found: ")) ∧
    process_mcp_request baseWorld (J.obj [("method", J.str "tools/call"),
        ("params", J.obj [("name", J.str "exec_repl")])]) =
      .ok (some (create_success_response
        ((List.lookup "id" [("method", J.str "tools/call"),
          ("params", J.obj [("name", J.str "exec_repl")])]).getD J.null)
        (J.obj [("content", J.arr [J.obj [("type", J.str "text"),
          ("text", J.str "Error: project_dir parameter is required")]])]))) :=
  ⟨(tools_call_defaults baseWorld).1 _ rfl rfl,
   (tools_call_defaults baseWorld).2.2 _ [("name", J.str "exec_repl")] rfl rfl rfl rfl⟩

/-- C8: a request whose method is `notifications/initialized` makes the
dispatcher return nothing (`none`), and the stdio front end emits no
output line for it. -/
theorem notification_no_output (w : World) (req : List (String × J)) (line : String)
    (hm : List.lookup "method" req = some (J.str "notifications/initialized"))
    (hne : (pyStrip line).isEmpty = false)
    (hparse : w.jsonParse (pyStrip line) = some (J.obj req)) :
    process_mcp_request w (J.obj req) = .ok none ∧ process_line w line = [] := by
  have h1 : process_mcp_request w (J.obj req) = .ok none := by
    simp +decide [process_mcp_request, pyGet, hm, Bind.bind, Except.bind, pure, Except.pure]
  refine ⟨h1, ?_⟩
  simp [process_line, hne, hparse, h1]

/-- C8 witness: the concrete notification line `"N"`. -/
theorem notification_no_output_witness :
    process_mcp_request wNotif (J.obj [("jsonrpc", J.str "2.0"),
      ("method", J.str "notifications/initialized")]) = .ok none ∧
    process_line wNotif "N" = [] :=
  notification_no_output wNotif _ "N" rfl (by decide) rfl

/-- C1: a `tools/call` of `exec_repl` whose arguments carry a (truthy)
`project_dir` but no `expression` field makes the handler return the
string `"Error: expression parameter is required"` (which mentions
"expression parameter is required"), and the dispatcher delivers it as a
successful JSON-RPC result envelope — a content list with one
`{type: "text", text}` item — never as an error envelope. -/
theorem exec_missing_expression (w : World) (kvs : List (String × J)) (idJ pd : J)
    (hpd : List.lookup "project_dir" kvs = some pd) (ht : jTruthy pd = true)
    (hex : List.lookup "expression" kvs = none) :
    handle_exec_repl w (J.obj kvs) = .ok (J.str "Error: expression parameter is required") ∧
    "Error: expression parameter is required" =
      "Error: " ++ "expression parameter is required" ∧
    process_mcp_request w (J.obj [
        ("jsonrpc", J.str "2.0"), ("id", idJ), ("method", J.str "tools/call"),
        ("params", J.obj [("name", J.str "exec_repl"), ("arguments", J.obj kvs)])]) =
      .ok (some (create_success_response idJ (J.obj [("content", J.arr [J.obj [
        ("type", J.str "text"),
        ("text", J.str "Error: expression parameter is required")]])]))) := by
  have h1 : handle_exec_repl w (J.obj kvs) =
      .ok (J.str "Error: expression parameter is required") := by
    simp +decide [handle_exec_repl, pyGetD, hpd, ht, hex, Bind.bind, Except.bind, pure,
      Except.pure]
  refine ⟨h1, by decide, ?_⟩
  simp +decide [process_mcp_request, pyGet, pyGetD, List.lookup, Bind.bind, Except.bind,
    pure, Except.pure, TOOLS, List.find?, jEqStr, h1]

/-- C1 witness: arguments `{project_dir: "/tmp"}` with no expression. -/
theorem exec_missing_expression_witness :
    handle_exec_repl baseWorld (J.obj [("project_dir", J.str "/tmp")]) =
      .ok (J.str "Error: expression parameter is required") ∧
    "Error: expression parameter is required" =
      "Error: " ++ "expression parameter is required" ∧
    process_mcp_request baseWorld (J.obj [
        ("jsonrpc", J.str "2.0"), ("id", J.num 7), ("method", J.str "tools/call"),
        ("params", J.obj [("name", J.str "exec_repl"),
          ("arguments", J.obj [("project_dir", J.str "/tmp")])])]) =
      .ok (some (create_success_response (J.num 7) (J.obj [("content", J.arr [J.obj [
        ("type", J.str "text"),
        ("text", J.str "Error: expression parameter is required")]])]))) :=
  exec_missing_expression baseWorld [("project_dir", J.str "/tmp")] (J.num 7) (J.str "/tmp")
    rfl (by decide) rfl

/-- C3: with `project_dir` and `expression` present and non-empty, a
backend found and alive, and a backend response of the form
`{result: {content: [{type: "text", text: t}]}}`, the execute handler
returns exactly the string `t`, and the dispatcher wraps exactly `t` as
the tool-result text. -/
theorem exec_round_trip (w : World) (kvs : List (String × J)) (pd ex t line : String)
    (sp : List String) (idJ : J)
    (hpd : List.lookup "project_dir" kvs = some (J.str pd)) (hpdne : pd.isEmpty = false)
    (hex : List.lookup "expression" kvs = some (J.str ex)) (hexne : ex.isEmpty = false)
    (hsock : find_socket_path w.fsExists (w.abspath pd) = some sp)
    (halive : check_server_running w sp = .ok true)
    (hconn : w.connectOk = true) (hwrite : w.writeOk = true)
    (hline : w.readlineResult = some line)
    (hresp : w.jsonParse line = some (J.obj [("result", J.obj [("content",
      J.arr [J.obj [("type", J.str "text"), ("text", J.str t)]])])])) :
    handle_exec_repl w (J.obj kvs) = .ok (J.str t) ∧
    process_mcp_request w (J.obj [("jsonrpc", J.str "2.0"), ("id", idJ),
      ("method", J.str "tools/call"),
      ("params", J.obj [("name", J.str "exec_repl"), ("arguments", J.obj kvs)])]) =
      .ok (some (create_success_response idJ (J.obj [("content", J.arr [J.obj [
        ("type", J.str "text"), ("text", J.str t)]])]))) := by
  have hsend : (send_to_julia_server w sp (J.obj [
      ("jsonrpc", J.str "2.0"), ("id", J.num 1), ("method", J.str "tools/call"),
      ("params", J.obj [("name", J.str "exec_repl"),
        ("arguments", J.obj [("expression", J.str ex)])])])).1 =
      .ok (J.obj [("result", J.obj [("content",
        J.arr [J.obj [("type", J.str "text"), ("text", J.str t)]])])]) := by
    simp [send_to_julia_server, hconn, hwrite, hline, hresp]
  have hunwrap : unwrap_response (J.obj [("result", J.obj [("content",
      J.arr [J.obj [("type", J.str "text"), ("text", J.str t)]])])]) = .ok (J.str t) := rfl
  have h1 : handle_exec_repl w (J.obj kvs) = .ok (J.str t) := by
    simp +decide [handle_exec_repl, pyGetD, hpd, hex, hpdne, hexne, jTruthy, pyAsPath,
      Bind.bind, Except.bind, pure, Except.pure, hsock, halive, handler_try_block,
      hsend, hunwrap]
  refine ⟨h1, ?_⟩
  simp +decide [process_mcp_request, pyGet, pyGetD, List.lookup, Bind.bind, Except.bind,
    pure, Except.pure, TOOLS, List.find?, jEqStr, h1]

/-- C3 witness: backend text `"2"` yields adapter tool-result text exactly
`"2"`. -/
theorem exec_round_trip_witness :
    handle_exec_repl wRoundTrip
      (J.obj [("project_dir", J.str "/p"), ("expression", J.str "1+1")]) =
      .ok (J.str "2") ∧
    process_mcp_request wRoundTrip (J.obj [("jsonrpc", J.str "2.0"), ("id", J.num 3),
      ("method", J.str "tools/call"),
      ("params", J.obj [("name", J.str "exec_repl"),
        ("arguments", J.obj [("project_dir", J.str "/p"), ("expression", J.str "1+1")])])]) =
      .ok (some (create_success_response (J.num 3) (J.obj [("content", J.arr [J.obj [
        ("type", J.str "text"), ("text", J.str "2")]])]))) :=
  exec_round_trip wRoundTrip [("project_dir", J.str "/p"), ("expression", J.str "1+1")]
    "/p" "1+1" "2" "L" [SOCKET_NAME, "p"] (J.num 3)
    rfl (by decide) rfl (by decide) rfl rfl rfl rfl rfl rfl

/-- C7 counterexample: for the backend response
`{result: {content: [{}]}}` — whose first content item is malformed
(lacking `text`) — the handler returns the empty string, not the
stringification `str(result)` of the raw result, refuting the claim that
every malformed shape falls back to stringifying the raw result. -/
theorem unwrap_fallback_counterexample :
    handle_exec_repl wMalformed
      (J.obj [("project_dir", J.str "/p"), ("expression", J.str "1+1")]) = .ok (J.str "") ∧
    pyStr (J.obj [("content", J.arr [J.obj []])]) = "\x7b\x27content\x27: [\x7b\x7d]\x7d" ∧
    ("" : String) ≠ "\x7b\x27content\x27: [\x7b\x7d]\x7d" :=
  ⟨rfl, rfl, by decide⟩

/-- C7 amended: for a mapping response without an `error` field and with a
mapping `result`: when `content` is absent or is not a non-empty list the
handler falls back to stringifying the raw result; when `content` is a
non-empty list whose first item is a mapping lacking `text` the handler
returns the empty string instead; when the first item is not a mapping the
unwrapping raises and the handler's `try` converts the fault to a
communication-error string — so in every such case the unwrapping
produces a valid string and never faults out of the handler. -/
theorem unwrap_fallback_amended :
    (∀ rkvs ckvs, List.lookup "error" rkvs = none →
      List.lookup "result" rkvs = some (J.obj ckvs) →
      List.lookup "content" ckvs = none →
      unwrap_response (J.obj rkvs) = .ok (J.str (pyStr (J.obj ckvs)))) ∧
    (∀ rkvs ckvs c, List.lookup "error" rkvs = none →
      List.lookup "result" rkvs = some (J.obj ckvs) →
      List.lookup "content" ckvs = some c →
      (∀ x l, c ≠ J.arr (x :: l)) →
      unwrap_response (J.obj rkvs) = .ok (J.str (pyStr (J.obj ckvs)))) ∧
    (∀ rkvs ckvs fk crest, List.lookup "error" rkvs = none →
      List.lookup "result" rkvs = some (J.obj ckvs) →
      List.lookup "content" ckvs = some (J.arr (J.obj fk :: crest)) →
      List.lookup "text" fk = none →
      unwrap_response (J.obj rkvs) = .ok (J.str "")) ∧
    (∀ rkvs ckvs first crest, List.lookup "error" rkvs = none →
      List.lookup "result" rkvs = some (J.obj ckvs) →
      List.lookup "content" ckvs = some (J.arr (first :: crest)) →
      (∀ fk, first ≠ J.obj fk) →
      ∃ e, unwrap_response (J.obj rkvs) = .error e) ∧
    (∀ (w : World) (sp : List String) (req : J),
      (∀ resp v, (send_to_julia_server w sp req).1 = .ok resp →
        unwrap_response resp = .ok v → ∃ s, v = J.str s) →
      ∃ s, handler_try_block w sp req = J.str s) := by
  refine ⟨?_, ?_, ?_, ?_, ?_⟩
  · intro rkvs ckvs herr hres hcon
    simp [unwrap_response, pyContains, pyIndexStr, pyGetD, herr, hres, hcon,
      Bind.bind, Except.bind, pure, Except.pure]
  · intro rkvs ckvs c herr hres hcon hne
    rcases c with _ | b | n | s | l | o
    · simp [unwrap_response, pyContains, pyIndexStr, pyGetD, herr, hres, hcon,
        Bind.bind, Except.bind, pure, Except.pure]
    · simp [unwrap_response, pyContains, pyIndexStr, pyGetD, herr, hres, hcon,
        Bind.bind, Except.bind, pure, Except.pure]
    · simp [unwrap_response, pyContains, pyIndexStr, pyGetD, herr, hres, hcon,
        Bind.bind, Except.bind, pure, Except.pure]
    · simp [unwrap_response, pyContains, pyIndexStr, pyGetD, herr, hres, hcon,
        Bind.bind, Except.bind, pure, Except.pure]
    · rcases l with _ | ⟨x, l⟩
      · simp [unwrap_response, pyContains, pyIndexStr, pyGetD, herr, hres, hcon,
          Bind.bind, Except.bind, pure, Except.pure]
      · exact absurd rfl (hne x l)
    · simp [unwrap_response, pyContains, pyIndexStr, pyGetD, herr, hres, hcon,
        Bind.bind, Except.bind, pure, Except.pure]
  · intro rkvs ckvs fk crest herr hres hcon htext
    simp [unwrap_response, pyContains, pyIndexStr, pyGetD, herr, hres, hcon, htext,
      Bind.bind, Except.bind, pure, Except.pure]
  · intro rkvs ckvs first crest herr hres hcon hfk
    rcases first with _ | b | n | s | l | o
    · simp [unwrap_response, pyContains, pyIndexStr, pyGetD, herr, hres, hcon,
        Bind.bind, Except.bind, pure, Except.pure]
    · simp [unwrap_response, pyContains, pyIndexStr, pyGetD, herr, hres, hcon,
        Bind.bind, Except.bind, pure, Except.pure]
    · simp [unwrap_response, pyContains, pyIndexStr, pyGetD, herr, hres, hcon,
        Bind.bind, Except.bind, pure, Except.pure]
    · simp [unwrap_response, pyContains, pyIndexStr, pyGetD, herr, hres, hcon,
        Bind.bind, Except.bind, pure, Except.pure]
    · simp [unwrap_response, pyContains, pyIndexStr, pyGetD, herr, hres, hcon,
        Bind.bind, Except.bind, pure, Except.pure]
    · exact absurd rfl (hfk o)
  · intro w sp req hok
    cases hsend : (send_to_julia_server w sp req).1 with
    | error e => simp [handler_try_block, hsend]
    | ok resp =>
      cases hunw : unwrap_response resp with
      | error e => simp [handler_try_block, hsend, hunw]
      | ok v =>
        obtain ⟨s, rfl⟩ := hok resp v hsend hunw
        simp [handler_try_block, hsend, hunw]

/-- C7 amended witness: a result without `content`, and a first content
item lacking `text`. -/
theorem unwrap_fallback_amended_witness :
    unwrap_response (J.obj [("result", J.obj [("other", J.null)])]) =
      .ok (J.str (pyStr (J.obj [("other", J.null)]))) ∧
    unwrap_response (J.obj [("result", J.obj [("content", J.arr [J.obj []])])]) =
      .ok (J.str "") :=
  ⟨unwrap_fallback_amended.1 _ _ rfl rfl rfl,
   unwrap_fallback_amended.2.2.1 _ _ [] [] rfl rfl rfl rfl⟩

end JuliaReplMcp
